import Mathlib

/-
Shallow embedding of src/c4_annotated.c, a minimal self-hosting C compiler
plus stack-machine interpreter, for checking the repository's natural
language specification.

Modelled from the source:
  - the token-class and opcode enumerations and the type encoding
    (CHAR, INT, PTR), lines 42-70;
  - the lexer `next` (lines 100-229), with the source cursor `p` modelled
    as the remaining list of character codes (the null terminator is the
    end of the list) and the symbol table as a list of records;
  - the symbol-table seeding in `main` (lines 467-489);
  - selected code-generation fragments of `expr`: the pre/post
    increment-decrement emission (lines 318-327 and 374-383) and the
    infix subtraction emission (lines 365-369);
  - the local-unwind walk after a function definition (lines 574-582);
  - the command-line flag processing and source-loading phase of `main`
    (lines 449-495);
  - the decode rule "opcodes <= ADJ carry one inline operand"
    (lines 114-121 and 609-616);
  - the VM's PRTF step (line 652).

Machine integers are modelled as Nat; the identifier hash, the only
computation that can wrap a 64-bit word, is reduced mod 2^64 explicitly.
Since the source stores `Name` as a pointer into the scanned text and
compares records by hash (which folds in the length) plus memcmp of the
lexeme bytes, the embedding stores the lexeme byte list itself in the
record and compares it for equality.
-/

set_option maxRecDepth 100000

namespace C4

-- Token classes, lines 42-53 of the source.  `Char`, `Int`, `Eq` and
-- friends would clash with core Lean names, so they live in their own
-- namespace; the numeric values are exactly the C enum values (Num = 128).
namespace Tok

def Num : Nat := 128
def Fun : Nat := 129
def Sys : Nat := 130
def Glo : Nat := 131
def Loc : Nat := 132
def Id : Nat := 133
def Char : Nat := 134
def Else : Nat := 135
def Enum : Nat := 136
def If : Nat := 137
def Int : Nat := 138
def Return : Nat := 139
def Sizeof : Nat := 140
def While : Nat := 141
def Assign : Nat := 142
def Cond : Nat := 143
def Lor : Nat := 144
def Lan : Nat := 145
def Or : Nat := 146
def Xor : Nat := 147
def And : Nat := 148
def Eq : Nat := 149
def Ne : Nat := 150
def Lt : Nat := 151
def Gt : Nat := 152
def Le : Nat := 153
def Ge : Nat := 154
def Shl : Nat := 155
def Shr : Nat := 156
def Add : Nat := 157
def Sub : Nat := 158
def Mul : Nat := 159
def Div : Nat := 160
def Mod : Nat := 161
def Inc : Nat := 162
def Dec : Nat := 163
def Brak : Nat := 164

end Tok

-- Opcodes, lines 57-66 of the source, in enumeration order from 0.
namespace Op

def LEA : Nat := 0
def IMM : Nat := 1
def JMP : Nat := 2
def JSR : Nat := 3
def BZ : Nat := 4
def BNZ : Nat := 5
def ENT : Nat := 6
def ADJ : Nat := 7
def LEV : Nat := 8
def LI : Nat := 9
def LC : Nat := 10
def SI : Nat := 11
def SC : Nat := 12
def PSH : Nat := 13
def OR : Nat := 14
def XOR : Nat := 15
def AND : Nat := 16
def EQ : Nat := 17
def NE : Nat := 18
def LT : Nat := 19
def GT : Nat := 20
def LE : Nat := 21
def GE : Nat := 22
def SHL : Nat := 23
def SHR : Nat := 24
def ADD : Nat := 25
def SUB : Nat := 26
def MUL : Nat := 27
def DIV : Nat := 28
def MOD : Nat := 29
def OPEN : Nat := 30
def READ : Nat := 31
def CLOS : Nat := 32
def PRTF : Nat := 33
def MALC : Nat := 34
def FREE : Nat := 35
def MSET : Nat := 36
def MCMP : Nat := 37
def EXIT : Nat := 38

end Op

-- Type encoding, line 70: enum { CHAR, INT, PTR }.  A k-level pointer to
-- base type b is encoded as b + k * PTR.
def CHAR : Nat := 0
def INT : Nat := 1
def PTR : Nat := 2

-- With `#define int long long`, sizeof(int) is 8 and sizeof(char) is 1.
def sizeofInt : Nat := 8
def sizeofChar : Nat := 1

-- The identifier hash lives in a 64-bit variable; reduce mod 2^64.
def hmod (n : Nat) : Nat := n % 18446744073709551616

-- Character-class tests used by the lexer, lines 133-137 and 162-175.
def isLower (c : Nat) : Bool := 97 ≤ c && c ≤ 122
def isUpper (c : Nat) : Bool := 65 ≤ c && c ≤ 90
def isIdStart (c : Nat) : Bool := isLower c || isUpper c || c == 95
def isDigit (c : Nat) : Bool := 48 ≤ c && c ≤ 57
def isIdChar (c : Nat) : Bool := isIdStart c || isDigit c
def isHexDigit (c : Nat) : Bool := isDigit c || (97 ≤ c && c ≤ 102) || (65 ≤ c && c ≤ 70)

-- Hex digit folding, line 171: (tk & 15) + (tk >= A-acute ? 9 : 0).
def hexVal (c : Nat) : Nat := c % 16 + (if 65 ≤ c then 9 else 0)

-- One symbol-table record, lines 75-86.  Field name mapping:
-- tk = Tk, hash = Hash, name = Name (the lexeme bytes), cls = Class,
-- ty = Type, val = Val, hcls = HClass, hty = HType, hval = HVal.
structure SymRec where
  tk : Nat
  hash : Nat
  name : List Nat
  cls : Nat
  ty : Nat
  val : Int
  hcls : Nat
  hty : Nat
  hval : Int
deriving DecidableEq

-- A freshly appended identifier record, lines 155-157: Name and Hash are
-- set, Tk becomes Id, the remaining slots keep their memset-zero value.
def SymRec.fresh (h : Nat) (nm : List Nat) : SymRec :=
  ⟨Tok.Id, h, nm, 0, 0, 0, 0, 0, 0⟩

def SymRec.zero : SymRec := ⟨0, 0, [], 0, 0, 0, 0, 0, 0⟩

-- Lexer state: the globals touched by next().  inp is the remaining
-- source text (cursor p), id is the index of the current identifier's
-- record, sym is the symbol table, data the data segment (string bytes).
structure LexState where
  inp : List Nat
  tk : Nat
  ival : Nat
  line : Nat
  id : Nat
  sym : List SymRec
  data : List Nat
deriving DecidableEq

-- Identifier scan, lines 134-141: accumulate hash (tk = tk*147 + ch) and
-- the lexeme; stops at the first non-identifier character.
def scanIdAux : Nat → List Nat → List Nat → Nat × List Nat × List Nat
  | h, acc, [] => (h, acc, [])
  | h, acc, c :: r =>
    if isIdChar c then scanIdAux (hmod (h * 147 + c)) (acc ++ [c]) r
    else (h, acc, c :: r)

-- Symbol lookup, lines 144-152: walk the live records comparing hash and
-- lexeme bytes; returns the index and record on a hit.
def findSymAux : List SymRec → Nat → Nat → List Nat → Option (Nat × SymRec)
  | [], _, _, _ => none
  | q :: rest, i, h, nm =>
    if q.hash = h ∧ q.name = nm then some (i, q)
    else findSymAux rest (i + 1) h nm

-- Decimal scan, line 165.
def scanDec : Nat → List Nat → Nat × List Nat
  | v, [] => (v, [])
  | v, c :: r => if isDigit c then scanDec (v * 10 + (c - 48)) r else (v, c :: r)

-- Hex scan, lines 168-171.
def scanHex : Nat → List Nat → Nat × List Nat
  | v, [] => (v, [])
  | v, c :: r => if isHexDigit c then scanHex (v * 16 + hexVal c) r else (v, c :: r)

-- Octal scan, line 175.
def scanOct : Nat → List Nat → Nat × List Nat
  | v, [] => (v, [])
  | v, c :: r => if 48 ≤ c && c ≤ 55 then scanOct (v * 8 + (c - 48)) r else (v, c :: r)

-- Skip to end of line, lines 128 and 185: while (*p != 0 && *p != 10) ++p;
-- the newline itself is left in the input.
def dropLine : List Nat → List Nat
  | [] => []
  | c :: r => if c = 10 then c :: r else dropLine r

-- String/character literal scan, lines 194-205.  quote is 34 or 39; for
-- string literals each (escape-translated) byte is appended to the data
-- segment.  Only backslash-n is translated (to 10); any other escaped
-- character stands for itself.  Returns (data, ival, rest); rest begins
-- with the closing quote when one was found.
def scanStr (quote : Nat) : List Nat → List Nat → Nat → List Nat × Nat × List Nat
  | [], dataAcc, iv => (dataAcc, iv, [])
  | c :: r, dataAcc, iv =>
    if c = quote then (dataAcc, iv, c :: r)
    else if c = 92 then
      match r with
      | [] => ((if quote = 34 then dataAcc ++ [0] else dataAcc), 0, [])
      | c2 :: r2 =>
        scanStr quote r2
          (if quote = 34 then dataAcc ++ [if c2 = 110 then 10 else c2] else dataAcc)
          (if c2 = 110 then 10 else c2)
    else scanStr quote r (if quote = 34 then dataAcc ++ [c] else dataAcc) c

-- The body of next(), lines 100-229.  The while (tk = *p) loop is
-- expressed with explicit fuel; one unit of fuel covers one loop
-- iteration, and every iteration consumes at least one input character,
-- so inp.length + 1 units always suffice (see next below).  The source
-- listing printed in the newline branch is output-only and is omitted.
def nextLoop : Nat → LexState → LexState
  | 0, st => st
  | fuel + 1, st =>
    match st.inp with
    | [] => { st with tk := 0 }
    | c :: r =>
      let st := { st with tk := c, inp := r }
      if c = 10 then
        nextLoop fuel { st with line := st.line + 1 }
      else if c = 35 then
        nextLoop fuel { st with inp := dropLine r }
      else if isIdStart c then
        let s := scanIdAux c [c] r
        let h := hmod (s.1 * 64 + s.2.1.length)
        match findSymAux st.sym 0 h s.2.1 with
        | some iq => { st with inp := s.2.2, tk := iq.2.tk, id := iq.1 }
        | none =>
          { st with inp := s.2.2, tk := Tok.Id, id := st.sym.length,
                    sym := st.sym ++ [SymRec.fresh h s.2.1] }
      else if isDigit c then
        if c ≠ 48 then
          let s := scanDec (c - 48) r
          { st with inp := s.2, tk := Tok.Num, ival := s.1 }
        else if r.headD 0 = 120 ∨ r.headD 0 = 88 then
          let s := scanHex 0 (r.drop 1)
          { st with inp := s.2, tk := Tok.Num, ival := s.1 }
        else
          let s := scanOct 0 r
          { st with inp := s.2, tk := Tok.Num, ival := s.1 }
      else if c = 47 then
        if r.headD 0 = 47 then nextLoop fuel { st with inp := dropLine (r.drop 1) }
        else { st with tk := Tok.Div }
      else if c = 39 ∨ c = 34 then
        let pp := st.data.length
        let s := scanStr c r st.data st.ival
        let st := { st with inp := s.2.2.drop 1, data := s.1 }
        if c = 34 then { st with ival := pp }
        else { st with ival := s.2.1, tk := Tok.Num }
      else if c = 61 then
        if r.headD 0 = 61 then { st with inp := r.drop 1, tk := Tok.Eq }
        else { st with tk := Tok.Assign }
      else if c = 43 then
        if r.headD 0 = 43 then { st with inp := r.drop 1, tk := Tok.Inc }
        else { st with tk := Tok.Add }
      else if c = 45 then
        if r.headD 0 = 45 then { st with inp := r.drop 1, tk := Tok.Dec }
        else { st with tk := Tok.Sub }
      else if c = 33 then
        -- line 211: if (*p == 61) { ++p; tk = Ne; } return;  -- the
        -- return is unconditional; a bare 33 ('!') keeps tk = 33.
        if r.headD 0 = 61 then { st with inp := r.drop 1, tk := Tok.Ne }
        else st
      else if c = 60 then
        if r.headD 0 = 61 then { st with inp := r.drop 1, tk := Tok.Le }
        else if r.headD 0 = 60 then { st with inp := r.drop 1, tk := Tok.Shl }
        else { st with tk := Tok.Lt }
      else if c = 62 then
        if r.headD 0 = 61 then { st with inp := r.drop 1, tk := Tok.Ge }
        else if r.headD 0 = 62 then { st with inp := r.drop 1, tk := Tok.Shr }
        else { st with tk := Tok.Gt }
      else if c = 124 then
        if r.headD 0 = 124 then { st with inp := r.drop 1, tk := Tok.Lor }
        else { st with tk := Tok.Or }
      else if c = 38 then
        if r.headD 0 = 38 then { st with inp := r.drop 1, tk := Tok.Lan }
        else { st with tk := Tok.And }
      else if c = 94 then { st with tk := Tok.Xor }
      else if c = 37 then { st with tk := Tok.Mod }
      else if c = 42 then { st with tk := Tok.Mul }
      else if c = 91 then { st with tk := Tok.Brak }
      else if c = 63 then { st with tk := Tok.Cond }
      else if c = 126 ∨ c = 59 ∨ c = 123 ∨ c = 125 ∨ c = 40 ∨ c = 41 ∨
              c = 93 ∨ c = 44 ∨ c = 58 then st
      else nextLoop fuel st

-- next(): run the scan loop with enough fuel for the whole remaining
-- input (each iteration consumes at least one character).
def next (st : LexState) : LexState := nextLoop (st.inp.length + 1) st

def strToCodes (s : String) : List Nat := s.toList.map (fun c => c.toNat)

-- Point update of a symbol-table record (id[...] = v in the source).
def updAt : List SymRec → Nat → (SymRec → SymRec) → List SymRec
  | [], _, _ => []
  | q :: rest, 0, f => f q :: rest
  | q :: rest, n + 1, f => q :: updAt rest n f

-- The keyword/built-in seeding string, lines 472-473.
def keywordSrc : List Nat :=
  strToCodes
    "char else enum if int return sizeof while open read close printf malloc free memset memcmp exit void main"

-- Globals before seeding: memset-zero arenas, line counter still 0
-- (line = 1 is only set after the source is read, line 498).
def initLexState : LexState := ⟨keywordSrc, 0, 0, 0, 0, [], []⟩

-- Lines 476-480: i = Char; while (i <= While) { next(); id[Tk] = i++; }
def seedKeywords : LexState :=
  List.foldl
    (fun st k =>
      let st := next st
      { st with sym := updAt st.sym st.id (fun q => { q with tk := Tok.Char + k }) })
    initLexState (List.range 8)

-- Lines 481-487: i = OPEN; while (i <= EXIT)
-- { next(); id[Class] = Sys; id[Type] = INT; id[Val] = i++; }
def seedSys : LexState :=
  List.foldl
    (fun st k =>
      let st := next st
      let f := fun q => { q with cls := Tok.Sys, ty := INT, val := Int.ofNat (Op.OPEN + k) }
      { st with sym := updAt st.sym st.id f })
    seedKeywords (List.range 9)

-- Line 488: next(); id[Tk] = Char;  -- handle void type
def seedVoid : LexState :=
  let st := next seedSys
  { st with sym := updAt st.sym st.id (fun q => { q with tk := Tok.Char }) }

-- Line 489: next(); idmain = id;  -- the record index of main
def seededState : LexState := next seedVoid
def idmainIdx : Nat := seededState.id

-- The token the lexer yields for the first token of `source` when run
-- against the fully seeded symbol table.
def lexFirstTok (source : List Nat) : Nat :=
  (next { seededState with inp := source }).tk

/- Code-generation fragments of expr().  `code` is the text segment
   emitted so far, a flat stream of opcode and operand words. -/

-- Lines 324 and 378/380: the increment/decrement step width,
-- (ty > PTR) ? sizeof(int) : sizeof(char).
def incDecDelta (ty : Nat) : Nat := if PTR < ty then sizeofInt else sizeofChar

-- Prefix ++/-- emission, lines 318-327.  The last emitted op must be LC
-- or LI (an lvalue load); it is rewritten to PSH (duplicating the
-- address), re-emitted, and the adjusted value is stored back.  none
-- models the "bad lvalue in pre-increment" fatal diagnostic.
def preIncEmit (code : List Nat) (isInc : Bool) (ty : Nat) : Option (List Nat) :=
  match code.getLast? with
  | some op =>
    if op = Op.LC ∨ op = Op.LI then
      some (code.dropLast ++
        [Op.PSH, op, Op.PSH, Op.IMM, incDecDelta ty,
         if isInc then Op.ADD else Op.SUB,
         if ty = CHAR then Op.SC else Op.SI])
    else none
  | none => none

-- Postfix ++/-- emission, lines 374-383: load, adjust, then un-adjust the
-- accumulator so the expression value is the pre-value.  (This annotated
-- source emits no store-back between the two adjustments.)
def postIncEmit (code : List Nat) (isInc : Bool) (ty : Nat) : Option (List Nat) :=
  match code.getLast? with
  | some op =>
    if op = Op.LC ∨ op = Op.LI then
      some (code.dropLast ++
        [Op.PSH, op, Op.PSH, Op.IMM, incDecDelta ty,
         (if isInc then Op.ADD else Op.SUB),
         Op.PSH, Op.IMM, incDecDelta ty,
         (if isInc then Op.SUB else Op.ADD)])
    else none
  | none => none

-- Infix subtraction emission, lines 365-369.  t is the left operand's
-- type, ty the right operand's; `code` already holds left, PSH and right
-- (emitted by `next(); *++e = PSH; expr(Mul);`).  Returns the extended
-- stream and the result type.  Note the middle branch's (ty = t)
-- assignment also runs when the branch test fails, so the plain-SUB
-- branch leaves the result type at t as well.
def subEmit (code : List Nat) (t ty : Nat) : List Nat × Nat :=
  if PTR < t ∧ t = ty then
    (code ++ [Op.SUB, Op.PSH, Op.IMM, sizeofInt, Op.DIV], INT)
  else if PTR < t then
    (code ++ [Op.PSH, Op.IMM, sizeofInt, Op.MUL, Op.SUB], t)
  else (code ++ [Op.SUB], t)

-- Modelled from the spec, for comparison with subEmit: the claim's
-- reading of pointer subtraction, where ANY two equal pointer types
-- (anything with at least one level of indirection, ty > INT, including
-- the char pointer) take the SUB / PSH / IMM sizeof(int) / DIV path with
-- result INT.
def claimedSubEmit (code : List Nat) (t ty : Nat) : List Nat × Nat :=
  if INT < t ∧ t = ty then
    (code ++ [Op.SUB, Op.PSH, Op.IMM, sizeofInt, Op.DIV], INT)
  else if INT < t then
    (code ++ [Op.PSH, Op.IMM, sizeofInt, Op.MUL, Op.SUB], t)
  else (code ++ [Op.SUB], t)

-- Modelled from the spec, for comparison with incDecDelta: the claim's
-- step width, sizeof(int) for every pointer type (ty > INT, including
-- the char pointer) and 1 otherwise.
def claimedIncDecDelta (ty : Nat) : Nat := if INT < ty then sizeofInt else 1

/- The local-unwind walk after a function definition, lines 574-582:
   id = sym; while (id[Tk]) { if (id[Class] == Loc) restore; id += Idsz; }
   The walk stops at the first record whose Tk slot is zero. -/

def restoreLoc (q : SymRec) : SymRec :=
  if q.cls = Tok.Loc then { q with cls := q.hcls, ty := q.hty, val := q.hval } else q

def unwindLocals : List SymRec → List SymRec
  | [] => []
  | q :: rest => if q.tk = 0 then q :: rest else restoreLoc q :: unwindLocals rest

/- Driver fragments of main(). -/

-- Command-line flag processing, lines 455-458, applied to argv after the
-- program name is dropped.  Each argument is its character codes (reading
-- one past the end of a string yields its null terminator, hence getD 0).
-- Only the first two characters are inspected: first 45 ('-'), second
-- 115 ('s') or 100 ('d').  Returns (src, debug, remaining arguments).
def procArgs (args : List (List Nat)) : Bool × Bool × List (List Nat) :=
  let p1 : Bool × List (List Nat) :=
    match args with
    | a :: rest =>
      if a.getD 0 0 = 45 ∧ a.getD 1 0 = 115 then (true, rest) else (false, a :: rest)
    | [] => (false, [])
  let p2 : Bool × List (List Nat) :=
    match p1.2 with
    | a :: rest =>
      if a.getD 0 0 = 45 ∧ a.getD 1 0 = 100 then (true, rest) else (false, a :: rest)
    | [] => (false, [])
  (p1.1, p2.1, p2.2)

def poolsz : Nat := 262144

-- The file operations the compiler itself performs (not those of the
-- compiled program, which go through the VM's OPEN/READ/CLOS opcodes).
inductive FileCall where
  | openF : Int → Int → FileCall
  | readF : Int → Int → FileCall
  | closeF : Int → FileCall
deriving DecidableEq

def FileCall.isOpen : FileCall → Bool
  | .openF _ _ => true
  | _ => false

-- Everything main() does before parsing, lines 449-495, as far as the
-- command line and the file descriptor are concerned.  fd0 is the
-- indeterminate initial value of the local `int fd` (line 450), which no
-- statement of main ever assigns; the mallocs, memsets and symbol
-- seeding that sit between the flag processing and the read touch
-- neither fd nor any file.  The program's only file operations are
-- read(fd, p, poolsz-1) (line 493) and close(fd) (line 495); no open()
-- call on the command-line file name exists anywhere in the program.
-- none models the usage message / early return -1 (line 458).
structure Phase1 where
  fd : Int
  srcFlag : Bool
  dbgFlag : Bool
  fileCalls : List FileCall
deriving DecidableEq

def setupPhase (fd0 : Int) (args : List (List Nat)) : Option Phase1 :=
  let f := procArgs args
  if f.2.2.length < 1 then none
  else some
    { fd := fd0, srcFlag := f.1, dbgFlag := f.2.1,
      fileCalls := [FileCall.readF fd0 (Int.ofNat (poolsz - 1)), FileCall.closeF fd0] }

-- What main() does once parsing has finished, lines 595-596: missing
-- main() aborts with -1; with -s set it returns 0 before the VM stack is
-- even set up; otherwise control transfers to the VM loop at main's
-- code address.
inductive RunOutcome where
  | exitWith : Int → RunOutcome
  | runVM : Int → RunOutcome
deriving DecidableEq

def afterParse (srcFlag : Bool) (mainVal : Int) : RunOutcome :=
  if mainVal = 0 then .exitWith (-1)
  else if srcFlag then .exitWith 0
  else .runVM mainVal

/- The VM's PRTF step, line 652:
   t = sp + pc[1]; a = printf((char *)t[-1], t[-2], t[-3], t[-4], t[-5], t[-6]);
   The stack is modelled as a list with index 0 at *sp (the stack grows
   downward, so index n-1 is the first value pushed); n is the inline ADJ
   count pc[1], i.e. one more than the number of trailing arguments. -/

def prtfFmt (sp : List Int) (n : Nat) : Int := sp.getD (n - 1) 0

def prtfArgsPassed (sp : List Int) (n : Nat) : List Int :=
  [sp.getD (n - 2) 0, sp.getD (n - 3) 0, sp.getD (n - 4) 0,
   sp.getD (n - 5) 0, sp.getD (n - 6) 0]

-- Modelled from the spec, for comparison with prtfArgsPassed: a C-style
-- printf applied to the format string and the first k trailing
-- arguments, in call order a1, a2, ...
def cPrintfTrailingArgs (k : Nat) (sp : List Int) (n : Nat) : List Int :=
  (List.range k).map (fun j => sp.getD (n - 2 - j) 0)

-- The operand decode rule shared by the listing printer (line 120), the
-- debug tracer (line 615) and every emit site: an opcode carries exactly
-- one inline operand iff it is <= ADJ.
def listingHasOperand (i : Nat) : Bool := i ≤ Op.ADJ

def numOpcodes : Nat := 39

def operandOpcodes : List Nat := (List.range numOpcodes).filter listingHasOperand


/- ------------------------------------------------------------------ -/
/- Claim theorems -/
/- ------------------------------------------------------------------ -/

-- Auxiliary: the unwind walk over a live prefix followed by the zeroed
-- remainder of the table restores every live record and stops at the
-- first zero Tk slot, leaving the zeroed tail untouched.
theorem unwind_append_eq (live zeros : List SymRec)
    (hlive : ∀ q ∈ live, q.tk ≠ 0) (hz : ∀ q ∈ zeros, q.tk = 0) :
    unwindLocals (live ++ zeros) = live.map restoreLoc ++ zeros := by
  induction live with
  | nil =>
    simp only [List.nil_append, List.map_nil]
    cases zeros with
    | nil => rfl
    | cons z zs => simp [unwindLocals, hz z (by simp)]
  | cons a as ih =>
    have ha : a.tk ≠ 0 := hlive a (by simp)
    simp only [List.cons_append, unwindLocals, ha, if_false, List.map_cons, if_neg ha]
    exact List.cons_eq_cons.mpr ⟨rfl, ih (fun q hq => hlive q (by simp [hq]))⟩

/-- Claim C1 (confirmed): in every execution of main, the source program
is read by read(fd, p, poolsz-1) with the local fd never having been
assigned — whatever indeterminate value fd0 the local holds is the value
passed to read and close — and the compiler's file-operation trace
contains no open() call, so the file named on the command line is never
opened. -/
theorem c1_read_uses_unassigned_fd_no_open (fd0 : Int) (args : List (List Nat))
    (ph : Phase1) (h : setupPhase fd0 args = some ph) :
    ph.fd = fd0 ∧
    ph.fileCalls = [FileCall.readF fd0 (Int.ofNat (poolsz - 1)), FileCall.closeF fd0] ∧
    (ph.fileCalls.all fun c => !c.isOpen) = true := by
  by_cases hc : (procArgs args).2.2.length < 1
  · simp [setupPhase, hc] at h
  · simp only [setupPhase, hc, if_false, Option.some.injEq, if_neg hc] at h
    subst h
    exact ⟨rfl, rfl, by simp [FileCall.isOpen]⟩

/-- Witness for C1 at fd0 = 41 and a one-file command line. -/
theorem c1_witness :
    (⟨41, false, false, [FileCall.readF 41 262143, FileCall.closeF 41]⟩ : Phase1).fileCalls =
      [FileCall.readF 41 (Int.ofNat (poolsz - 1)), FileCall.closeF 41] :=
  (c1_read_uses_unassigned_fd_no_open 41 [[102]]
    ⟨41, false, false, [FileCall.readF 41 262143, FileCall.closeF 41]⟩ (by decide)).2.1

/-- Claim C2 counterexample: for a compiled call printf(fmt, a1..a6)
(ADJ count 7; here a1..a6 are 10..60 and the format string address is
1000), the VM does not hand the host printf the six trailing arguments
the claim demands: the argument list actually passed differs from the
C-style list of the first six trailing arguments, and a6 = 60 is not
passed at all. -/
theorem c2_counterexample :
    prtfArgsPassed [60, 50, 40, 30, 20, 10, 1000] 7 ≠
      cPrintfTrailingArgs 6 [60, 50, 40, 30, 20, 10, 1000] 7 ∧
    (60 : Int) ∉ prtfArgsPassed [60, 50, 40, 30, 20, 10, 1000] 7 := by
  decide

/-- Claim C2 (amended): for every executed PRTF instruction the VM passes
the host printf the format string at t[-1] together with exactly the
first FIVE trailing arguments (t[-2]..t[-6]); a sixth variadic argument
is dropped. -/
theorem c2_prtf_passes_first_five (sp : List Int) (n : Nat) :
    prtfArgsPassed sp n = cPrintfTrailingArgs 5 sp n := by
  have h5 : List.range 5 = [0, 1, 2, 3, 4] := rfl
  simp [prtfArgsPassed, cPrintfTrailingArgs, h5, Nat.sub_sub]

/-- Claim C3 counterexample: for an operand of type char* (encoded
CHAR + PTR = 2), which has one level of indirection and so is a pointer
type in the claim's sense, the emitted pre-increment adjustment constant
is 1 (sizeof(char)), not the sizeof(int) = 8 the claim demands. -/
theorem c3_counterexample :
    INT < CHAR + PTR ∧
    incDecDelta (CHAR + PTR) ≠ claimedIncDecDelta (CHAR + PTR) ∧
    preIncEmit [Op.LI] true (CHAR + PTR) =
      some [Op.PSH, Op.LI, Op.PSH, Op.IMM, 1, Op.ADD, Op.SI] ∧
    claimedIncDecDelta (CHAR + PTR) = sizeofInt := by
  decide

/-- Claim C3 (amended): for every prefix and postfix increment or
decrement applied to an
lvalue, the emitted adjustment constant is sizeof(int) exactly when the
operand's type satisfies ty > PTR (int*, or any pointer of two or more
indirection levels), and 1 otherwise — in particular char* is adjusted
by 1. -/
theorem c3_incdec_delta (code : List Nat) (op : Nat) (b : Bool) (ty : Nat)
    (hlast : code.getLast? = some op) (hop : op = Op.LC ∨ op = Op.LI) :
    preIncEmit code b ty =
      some (code.dropLast ++
        [Op.PSH, op, Op.PSH, Op.IMM, (if PTR < ty then sizeofInt else 1),
         (if b then Op.ADD else Op.SUB), (if ty = CHAR then Op.SC else Op.SI)]) ∧
    postIncEmit code b ty =
      some (code.dropLast ++
        [Op.PSH, op, Op.PSH, Op.IMM, (if PTR < ty then sizeofInt else 1),
         (if b then Op.ADD else Op.SUB),
         Op.PSH, Op.IMM, (if PTR < ty then sizeofInt else 1),
         (if b then Op.SUB else Op.ADD)]) := by
  constructor <;>
    · simp only [preIncEmit, postIncEmit, hlast]
      rw [if_pos hop]
      simp [incDecDelta, sizeofChar]

/-- Witness for C3 with an int lvalue loaded by LI. -/
theorem c3_witness :
    preIncEmit [Op.LI] true INT =
      some ([Op.LI].dropLast ++
        [Op.PSH, Op.LI, Op.PSH, Op.IMM, (if PTR < INT then sizeofInt else 1),
         (if true then Op.ADD else Op.SUB), (if INT = CHAR then Op.SC else Op.SI)]) :=
  (c3_incdec_delta [Op.LI] Op.LI true INT rfl (Or.inr rfl)).1

/-- Claim C4 counterexample: subtracting two operands of the same pointer
type char* (CHAR + PTR = 2, one level of indirection) does NOT produce
the claimed SUB / PSH / IMM sizeof(int) / DIV sequence with result INT;
the emitter produces a plain SUB and the result type stays char*. -/
theorem c4_counterexample :
    INT < CHAR + PTR ∧
    subEmit [] (CHAR + PTR) (CHAR + PTR) = ([Op.SUB], CHAR + PTR) ∧
    subEmit [] (CHAR + PTR) (CHAR + PTR) ≠ claimedSubEmit [] (CHAR + PTR) (CHAR + PTR) := by
  decide

/-- Claim C4 (amended): the SUB / PSH / IMM sizeof(int) / DIV sequence
with result type INT is emitted exactly when both operands have the same
pointer type t with t > PTR (int*, or two or more indirection levels);
for char* - char* the emitter produces a plain SUB and the result type
remains char*. -/
theorem c4_ptr_sub (code : List Nat) (t ty : Nat) (hp : PTR < t) (he : t = ty) :
    subEmit code t ty = (code ++ [Op.SUB, Op.PSH, Op.IMM, sizeofInt, Op.DIV], INT) ∧
    (∀ code2, subEmit code2 (CHAR + PTR) (CHAR + PTR) = (code2 ++ [Op.SUB], CHAR + PTR)) := by
  subst he
  constructor
  · simp [subEmit, hp]
  · intro code2
    simp [subEmit, CHAR, PTR, INT]

/-- Witness for C4 at int* - int* (type INT + PTR = 3). -/
theorem c4_witness :
    subEmit [] (INT + PTR) (INT + PTR) =
      ([] ++ [Op.SUB, Op.PSH, Op.IMM, sizeofInt, Op.DIV], INT) :=
  (c4_ptr_sub [] (INT + PTR) (INT + PTR) (by decide) rfl).1

/-- Claim C5 counterexample: on the input "!x" the lexer DOES return from
the bare-! branch, with the raw character 33 as the current token and the
x still unconsumed — it does not fall through to restart the scan loop
(which would have lexed x and returned Id). -/
theorem c5_counterexample :
    (next ⟨[33, 120], 0, 0, 1, 0, [], []⟩).tk = 33 ∧
    (next ⟨[33, 120], 0, 0, 1, 0, [], []⟩).tk ≠ Tok.Id ∧
    (next ⟨[33, 120], 0, 0, 1, 0, [], []⟩).inp = [120] := by
  decide

/-- Claim C5 (amended): when the lexer reads a bare `!` not followed by
`=`, next() returns immediately with the raw character '!' (33) as the
current token, having consumed exactly the '!' and leaving the symbol
table and line counter untouched. -/
theorem c5_bare_bang_returns (st : LexState) (r : List Nat)
    (hin : st.inp = 33 :: r) (hne : r.headD 0 ≠ 61) :
    (next st).tk = 33 ∧ (next st).inp = r ∧ (next st).sym = st.sym ∧
    (next st).line = st.line := by
  cases st with
  | mk inp tk ival line id sym data =>
    simp only at hin
    subst hin
    rw [List.headD_eq_head?] at hne
    simp [next, nextLoop, isIdStart, isLower, isUpper, isDigit, hne]

/-- Witness for C5 on the input "!_a" with a non-trivial lexer state. -/
theorem c5_witness : (next ⟨[33, 95, 97], 5, 6, 2, 1, [SymRec.zero], [7]⟩).tk = 33 :=
  (c5_bare_bang_returns ⟨[33, 95, 97], 5, 6, 2, 1, [SymRec.zero], [7]⟩ [95, 97]
    rfl (by decide)).1

/-- Claim C6 counterexample: the set of opcodes that carry one inline
operand — those ≤ ADJ under the decode rule used by the listing printer
and the debug tracer — does not contain nine opcodes. -/
theorem c6_counterexample : operandOpcodes.length ≠ 9 := by decide

/-- Claim C6 (amended): the set of opcodes carrying exactly one inline
operand is the set of opcodes ≤ ADJ, which is the first EIGHT opcodes in
enumeration order (LEA, IMM, JMP, JSR, BZ, BNZ, ENT, ADJ); all other
opcodes carry none. -/
theorem c6_operand_opcodes :
    operandOpcodes = [Op.LEA, Op.IMM, Op.JMP, Op.JSR, Op.BZ, Op.BNZ, Op.ENT, Op.ADJ] ∧
    operandOpcodes.length = 8 ∧
    (∀ i, listingHasOperand i = true ↔ i ≤ Op.ADJ) := by
  refine ⟨by decide, by decide, fun i => ?_⟩
  simp [listingHasOperand]

/-- Claim C7 (confirmed): when parsing finishes without a diagnostic —
in particular main() is defined, so its code address idmain[Val] is
non-zero — running with -s returns exit code 0 and the VM loop is never
entered. -/
theorem c7_src_skips_vm (v : Int) (hv : v ≠ 0) :
    afterParse true v = RunOutcome.exitWith 0 ∧
    ∀ a, afterParse true v ≠ RunOutcome.runVM a := by
  simp [afterParse, hv]

/-- Witness for C7 with main's entry address at 100. -/
theorem c7_witness : afterParse true 100 = RunOutcome.exitWith 0 :=
  (c7_src_skips_vm 100 (by decide)).1

/-- Claim C8 (confirmed): after the unwind walk that follows a function
definition, run over a table of live records (Tk ≠ 0, with shadow HClass
never Loc, which the duplicate-parameter/local checks guarantee)
followed by the memset-zeroed remainder, every shadowed record's Class,
Type and Val are restored from HClass, HType and HVal, and no record in
the table has Class = Loc. -/
theorem c8_unwind_no_loc (live zeros : List SymRec)
    (hlive : ∀ q ∈ live, q.tk ≠ 0)
    (hsh : ∀ q ∈ live, q.hcls ≠ Tok.Loc)
    (hz : ∀ q ∈ zeros, q.tk = 0 ∧ q.cls = 0) :
    unwindLocals (live ++ zeros) = live.map restoreLoc ++ zeros ∧
    ∀ q ∈ unwindLocals (live ++ zeros), q.cls ≠ Tok.Loc := by
  have heq := unwind_append_eq live zeros hlive (fun q hq => (hz q hq).1)
  refine ⟨heq, ?_⟩
  rw [heq]
  intro q hq
  rcases List.mem_append.mp hq with hmem | hmem
  · rcases List.mem_map.mp hmem with ⟨r, hr, hqr⟩
    subst hqr
    by_cases hc : r.cls = Tok.Loc
    · simpa [restoreLoc, hc] using hsh r hr
    · simp [restoreLoc, hc]
  · have h0 := (hz q hmem).2
    simp [h0, Tok.Loc]

/-- Witness for C8: a table holding one shadowed local (Class = Loc,
previous class Glo) followed by one zeroed record. -/
theorem c8_witness :
    unwindLocals ([⟨Tok.Id, 7, [120], Tok.Loc, INT, 3, Tok.Glo, INT, 64⟩] ++ [SymRec.zero]) =
      [(⟨Tok.Id, 7, [120], Tok.Loc, INT, 3, Tok.Glo, INT, 64⟩ : SymRec)].map restoreLoc ++
        [SymRec.zero] :=
  (c8_unwind_no_loc [⟨Tok.Id, 7, [120], Tok.Loc, INT, 3, Tok.Glo, INT, 64⟩] [SymRec.zero]
    (by decide) (by decide) (by decide)).1

/-- Claim C9 (confirmed): the symbol-table seeding assigns the identifier
"void" the token class Char — record 17 of the seeded table is named
"void" and has Tk = Char — so lexing `void` against the seeded table
yields exactly the token that lexing `char` yields, and the parser treats
the two words identically (e.g. void main() parses as char main()). -/
theorem c9_void_is_char :
    (seededState.sym.getD 17 SymRec.zero).name = strToCodes "void" ∧
    (seededState.sym.getD 17 SymRec.zero).tk = Tok.Char ∧
    lexFirstTok (strToCodes "void x") = Tok.Char ∧
    lexFirstTok (strToCodes "char x") = Tok.Char ∧
    lexFirstTok (strToCodes "void x") = lexFirstTok (strToCodes "char x") := by
  decide

/-- Claim C10 (confirmed): flag recognition inspects only the first two
characters of an argument and is order-dependent — any first argument
whose first two characters are '-','s' (45, 115) enables listing mode
whatever follows; in `c4 -d -s file` the -d is consumed as the debug flag
while -s is left as the first remaining argument, i.e. in the input-file
position; and -s is recognized only as the first argument: when the first
argument does not begin '-','s', listing mode stays off. -/
theorem c10_flag_order :
    (∀ tail rest, (procArgs ((45 :: 115 :: tail) :: rest)).1 = true) ∧
    procArgs [[45, 100], [45, 115], [102]] = (false, true, [[45, 115], [102]]) ∧
    (∀ a rest, ¬(a.getD 0 0 = 45 ∧ a.getD 1 0 = 115) → (procArgs (a :: rest)).1 = false) := by
  refine ⟨fun tail rest => ?_, by decide, fun a rest h => ?_⟩
  · simp [procArgs]
  · have h2 : ¬(a[0]?.getD 0 = 45 ∧ a[1]?.getD 0 = 115) := by
      simpa [List.getD_eq_getElem?_getD] using h
    simp [procArgs, h2]

/-- Witness for C10: a dash-less first argument leaves listing mode off. -/
theorem c10_witness : (procArgs [[102, 46, 99]]).1 = false :=
  c10_flag_order.2.2 [102, 46, 99] [] (by decide)

end C4
